import Mathlib

/-!
Verification of the OpenLLM prebuilt `service.py` gateway
(`src/bentoml/bentos/mistral-large/123b-instruct-2407-e1ef/src/service.py`).

The file shallowly embeds the serving logic of that module:
capability-driven route construction, the `generate` / `sights`
streaming endpoints with their error containment, the multimodal
base64 data-URI encoder, the `MAX_TOKENS` resolution, and the UI
catch-all static file route.
-/

namespace Service

/-! ## Capability configuration (service.py lines 16-23)

`ENGINE_CONFIG`, `SUPPORTS_VISION`, `SUPPORTS_EMBEDDINGS` come from a YAML
file that is not part of the sources, so they stay parameters of the model.
-/

/-- Model of `MAX_TOKENS = min(ENGINE_CONFIG.get(..., 2048), 4096)`
(service.py line 23).  `maxModelLen` is the value of the `max_model_len`
key of `ENGINE_CONFIG`: `none` when the key is absent. -/
def MAX_TOKENS (maxModelLen : Option Nat) : Nat :=
  min (maxModelLen.getD 2048) 4096

/-! ## Base64 / data-URI encoding (service.py lines 142-146)

`sights` serializes the PIL image to PNG bytes, applies the Python
function `base64.b64encode` (standard RFC 4648 alphabet with `=` padding)
and embeds the result in a `data:image/png;base64,` URI.  Bytes are
modelled as `Nat` values below 256. -/

/-- The standard base64 alphabet used by `base64.b64encode`. -/
def b64alphabet : List Char :=
  "ABCDEFGHIJKLMNOPQRSTUVWXYZabcdefghijklmnopqrstuvwxyz0123456789+/".toList

/-- Character for a 6-bit group. -/
def b64char (n : Nat) : Char := b64alphabet.getD n '='

/-- Index of a character in the base64 alphabet (used by the decoder). -/
def b64charIndex (c : Char) : Nat := b64alphabet.indexOf c

/-- The Python function `base64.b64encode` on a byte list: groups of three bytes become
four alphabet characters; a trailing group of one or two bytes is padded
with `=`. -/
def b64encode : List Nat → List Char
  | [] => []
  | [a] => [b64char (a / 4), b64char (a % 4 * 16), '=', '=']
  | [a, b] => [b64char (a / 4), b64char (a % 4 * 16 + b / 16), b64char (b % 16 * 4), '=']
  | a :: b :: c :: rest =>
      b64char (a / 4) :: b64char (a % 4 * 16 + b / 16) ::
        b64char (b % 16 * 4 + c / 64) :: b64char (c % 64) :: b64encode rest

/-- Standard base64 decoding of a padded encoding: each four-character group
yields three bytes, or fewer on the final `=`-padded group. -/
def b64decode : List Char → List Nat
  | w :: x :: y :: z :: rest =>
      if y = '=' then
        [b64charIndex w * 4 + b64charIndex x / 16]
      else if z = '=' then
        [b64charIndex w * 4 + b64charIndex x / 16,
         b64charIndex x % 16 * 16 + b64charIndex y / 4]
      else
        (b64charIndex w * 4 + b64charIndex x / 16) ::
        (b64charIndex x % 16 * 16 + b64charIndex y / 4) ::
        (b64charIndex y % 4 * 64 + b64charIndex z) :: b64decode rest
  | _ => []

theorem b64charIndex_b64char_fin : ∀ n : Fin 64, b64charIndex (b64char n.1) = n.1 := by
  decide

theorem b64char_ne_pad_fin : ∀ n : Fin 64, b64char n.1 ≠ '=' := by
  decide

theorem b64charIndex_b64char (n : Nat) (h : n < 64) : b64charIndex (b64char n) = n :=
  b64charIndex_b64char_fin ⟨n, h⟩

theorem b64char_ne_pad (n : Nat) (h : n < 64) : b64char n ≠ '=' :=
  b64char_ne_pad_fin ⟨n, h⟩

theorem b64decode_two_pad (w x z : Char) (t : List Char) :
    b64decode (w :: x :: '=' :: z :: t) = [b64charIndex w * 4 + b64charIndex x / 16] := by
  simp [b64decode]

theorem b64decode_one_pad (w x y : Char) (t : List Char) (hy : y ≠ '=') :
    b64decode (w :: x :: y :: '=' :: t) =
      [b64charIndex w * 4 + b64charIndex x / 16,
       b64charIndex x % 16 * 16 + b64charIndex y / 4] := by
  simp [b64decode, hy]

theorem b64decode_full (w x y z : Char) (t : List Char) (hy : y ≠ '=') (hz : z ≠ '=') :
    b64decode (w :: x :: y :: z :: t) =
      (b64charIndex w * 4 + b64charIndex x / 16) ::
      (b64charIndex x % 16 * 16 + b64charIndex y / 4) ::
      (b64charIndex y % 4 * 64 + b64charIndex z) :: b64decode t := by
  simp [b64decode, hy, hz]

/-- Decoding inverts encoding on byte lists. -/
theorem b64decode_b64encode (bs : List Nat) (h : ∀ b ∈ bs, b < 256) :
    b64decode (b64encode bs) = bs := by
  induction bs using b64encode.induct with
  | case1 => rfl
  | case2 a =>
      have ha : a < 256 := h a (by simp)
      rw [b64encode, b64decode_two_pad]
      rw [b64charIndex_b64char (a / 4) (by omega),
          b64charIndex_b64char (a % 4 * 16) (by omega)]
      simp only [List.cons.injEq, and_true]
      omega
  | case3 a b =>
      have ha : a < 256 := h a (by simp)
      have hb : b < 256 := h b (by simp)
      rw [b64encode, b64decode_one_pad _ _ _ _ (b64char_ne_pad (b % 16 * 4) (by omega))]
      rw [b64charIndex_b64char (a / 4) (by omega),
          b64charIndex_b64char (a % 4 * 16 + b / 16) (by omega),
          b64charIndex_b64char (b % 16 * 4) (by omega)]
      simp only [List.cons.injEq, and_true]
      omega
  | case4 a b c rest ih =>
      have ha : a < 256 := h a (by simp)
      have hb : b < 256 := h b (by simp)
      have hc : c < 256 := h c (by simp)
      have hrest : ∀ x ∈ rest, x < 256 := by
        intro x hx
        exact h x (by simp [hx])
      rw [b64encode,
          b64decode_full _ _ _ _ _ (b64char_ne_pad (b % 16 * 4 + c / 64) (by omega))
            (b64char_ne_pad (c % 64) (by omega))]
      rw [b64charIndex_b64char (a / 4) (by omega),
          b64charIndex_b64char (a % 4 * 16 + b / 16) (by omega),
          b64charIndex_b64char (b % 16 * 4 + c / 64) (by omega),
          b64charIndex_b64char (c % 64) (by omega)]
      rw [ih hrest]
      simp only [List.cons.injEq, and_true]
      omega

/-! ## Chat request construction (service.py lines 117-122 and 141-157)

Both endpoints build a single-user-message chat-completions request.  A
content block is one of the dicts of type `text` or `image_url`. -/

/-- A content block of the user message. -/
inductive ContentBlock where
  | text (t : String)
  | image_url (url : String)
deriving DecidableEq, Repr

/-- The request passed to `self.client.chat.completions.create`: model id,
the content list of the single user message, `stream=True`, and `max_tokens`. -/
structure ChatRequest where
  model : String
  content : List ContentBlock
  stream : Bool
  max_tokens : Int
deriving DecidableEq, Repr

/-- The data URI built at service.py lines 142-146: save the image as PNG
into a buffer, apply `base64.b64encode`, and prepend the fixed
`data:image/png;base64,` prefix. -/
def encodeDataUri (pngBytes : List Nat) : String :=
  "data:image/png;base64," ++ (b64encode pngBytes).asString

/-- The image argument of `sights` as the endpoint body observes it:
absent (`None`), an image whose PNG serialization yields the given bytes,
or an image whose PNG serialization raises. -/
inductive ImageInput where
  | noImage
  | png (bytes : List Nat)
  | serializationFails
deriving DecidableEq, Repr

/-- The `content` list built by `sights` (service.py lines 141-149):
`[ImageRef, Text]` when an image is supplied, `[Text]` otherwise; `none`
models the exception when PNG serialization raises (this happens before
the `try` block). -/
def sightsContent (prompt : String) : ImageInput → Option (List ContentBlock)
  | .noImage => some [.text prompt]
  | .png bytes => some [.image_url (encodeDataUri bytes), .text prompt]
  | .serializationFails => none

/-! ## The completion stream and its consumption (service.py lines 116-128, 151-163)

The loopback completions call either raises, or yields a stream of chunks,
each carrying `chunk.choices[0].delta.content` (possibly `None`), where
awaiting the next chunk may itself raise. -/

/-- One step of the `async for` loop: a chunk with its optional delta text,
or an exception raised while awaiting the next chunk. -/
inductive StreamEvent where
  | chunk (delta : Option String)
  | failure
deriving DecidableEq, Repr

/-- Outcome of `await self.client.chat.completions.create(...)`: the call
raises, or returns a stream producing the given events. -/
inductive CompletionOutcome where
  | raises
  | stream (events : List StreamEvent)
deriving DecidableEq, Repr

/-- The fixed user-facing notice yielded on a contained failure
(service.py lines 127 and 162). -/
def notice : String := "Internal error found. Check server logs for more information"

/-- The `async for` loop yielding `chunk.choices[0].delta.content or` the
empty string, under the `except` handler: each chunk re-emits its delta
text (empty string when `None`); the first failure yields the notice and
returns. -/
def consumeStream : List StreamEvent → List String
  | [] => []
  | .chunk d :: rest => d.getD "" :: consumeStream rest
  | .failure :: _ => [notice]

/-- The whole `try`/`except` body shared by `generate` and `sights`
(service.py lines 116-128 and 151-163): a raising `create` call or a
mid-stream failure is caught, the notice is yielded, and the generator
returns. -/
def tryBody : CompletionOutcome → List String
  | .raises => [notice]
  | .stream events => consumeStream events

/-- The delta texts emitted before the first failure. -/
def deltasBefore : List StreamEvent → List String
  | [] => []
  | .chunk d :: rest => d.getD "" :: deltasBefore rest
  | .failure :: _ => []

/-- Does the completions call or its stream fail at some point? -/
def CompletionOutcome.fails : CompletionOutcome → Prop
  | .raises => True
  | .stream events => StreamEvent.failure ∈ events

instance : DecidablePred CompletionOutcome.fails := by
  intro o
  cases o with
  | raises => exact .isTrue trivial
  | stream events => exact inferInstanceAs (Decidable (_ ∈ _))

/-! ## The endpoints (service.py lines 108-163)

`max_tokens` is declared `Annotated[int, annotated_types.Ge(128),
annotated_types.Le(MAX_TOKENS)] = MAX_TOKENS`; the framework validates the
bounds and rejects the request before the endpoint body runs, and supplies
`MAX_TOKENS` when the caller omits the argument. -/

/-- The `Ge(128)`/`Le(MAX_TOKENS)` bound on `max_tokens`
(service.py lines 114 and 137-139). -/
def validMaxTokens (maxTok : Nat) (mt : Int) : Bool :=
  128 ≤ mt && mt ≤ (maxTok : Int)

/-- How a call to an endpoint ends, as the caller observes it. -/
inductive Outcome where
  | rejected
  | raised
  | streamed (chunks : List String)
deriving DecidableEq, Repr

/-- Everything observable about one endpoint call: how many times
`completions.create` was invoked, the request it was given (if any), and
the outcome. -/
structure CallResult where
  engineCalls : Nat
  request : Option ChatRequest
  outcome : Outcome
deriving DecidableEq, Repr

/-- The `generate` endpoint (service.py lines 110-128).  `maxTok` is the
resolved `MAX_TOKENS`; `max_tokens = none` models an omitted argument,
defaulted to `MAX_TOKENS` per the signature; `completion` is the behavior
of the loopback completions call. -/
def generate (modelId : String) (maxTok : Nat) (prompt : String)
    (max_tokens : Option Int) (completion : CompletionOutcome) : CallResult :=
  let mt := max_tokens.getD (maxTok : Int)
  if validMaxTokens maxTok mt then
    { engineCalls := 1
      request := some ⟨modelId, [.text prompt], true, mt⟩
      outcome := .streamed (tryBody completion) }
  else
    { engineCalls := 0, request := none, outcome := .rejected }

/-- The `sights` endpoint (service.py lines 132-163).  Content construction
(including PNG serialization and base64 encoding) happens before the `try`
block: when serialization raises, the exception propagates and no
completions call is made. -/
def sights (modelId : String) (maxTok : Nat) (prompt : String) (image : ImageInput)
    (max_tokens : Option Int) (completion : CompletionOutcome) : CallResult :=
  let mt := max_tokens.getD (maxTok : Int)
  if validMaxTokens maxTok mt then
    match sightsContent prompt image with
    | none => { engineCalls := 0, request := none, outcome := .raised }
    | some content =>
        { engineCalls := 1
          request := some ⟨modelId, content, true, mt⟩
          outcome := .streamed (tryBody completion) }
  else
    { engineCalls := 0, request := none, outcome := .rejected }

/-! ## Route composition (service.py lines 69-77, 108, 130)

`/models` and `/chat/completions` are always registered; `/embeddings` is
appended iff `SUPPORTS_EMBEDDINGS`; the `generate` bentoml api exists iff
`not SUPPORTS_EMBEDDINGS`; the `sights` api exists iff additionally
`SUPPORTS_VISION`. -/

/-- The routes the service can expose. -/
inductive Route where
  | models
  | chatCompletions
  | embeddings
  | generateApi
  | sightsApi
deriving DecidableEq, Repr

/-- The route table determined by the two capability flags. -/
def buildRoutes (vision embeddings : Bool) : List Route :=
  [Route.models, Route.chatCompletions]
    ++ (if embeddings then [Route.embeddings] else [])
    ++ (if embeddings then []
        else [Route.generateApi] ++ (if vision then [Route.sightsApi] else []))

/-! ## The UI sub-application (service.py lines 30-40)

Paths are modelled by their `/`-separated components, plus an
absolute-path flag for the request path (`os.path.join(a, b)` returns `b`
unchanged when `b` is absolute).  `resolveComps` is the resolution of `.`
and `..` components the operating system applies when the joined string is
checked for existence and served. -/

/-- A request path captured by the `{full_path:path}` parameter. -/
structure ReqPath where
  absolute : Bool
  comps : List String
deriving DecidableEq, Repr

/-- Filesystem resolution of `.`/`..`/empty components over an absolute
component list (`..` at the root stays at the root). -/
def resolveComps (acc : List String) : List String → List String
  | [] => acc
  | c :: rest =>
      if c = "" ∨ c = "." then resolveComps acc rest
      else if c = ".." then resolveComps acc.dropLast rest
      else resolveComps (acc ++ [c]) rest

/-- The file path `os.path.join(STATIC_DIR, full_path)` resolves to
(service.py line 37): the request path itself when absolute, otherwise the
static root extended by the request components, with `.` and `..`
resolved. -/
def catchAllFilePath (staticRoot : List String) (p : ReqPath) : List String :=
  if p.absolute then resolveComps [] p.comps
  else resolveComps [] (staticRoot ++ p.comps)

/-- The `catch_all` handler (service.py lines 35-40): serve the joined file
path when it exists, else `STATIC_DIR/chat.html`.  `exists` is the
`os.path.exists` oracle on resolved paths. -/
def catch_all (staticRoot : List String) (pathExists : List String → Bool)
    (p : ReqPath) : List String :=
  let fp := catchAllFilePath staticRoot p
  if pathExists fp then fp else staticRoot ++ ["chat.html"]

/-- The `serve_chat_html` root handler (service.py lines 30-32). -/
def serve_chat_html (staticRoot : List String) : List String :=
  staticRoot ++ ["chat.html"]

/-- Dispatch of the UI sub-application: `GET /` hits `serve_chat_html`,
any other path hits `catch_all`. -/
def uiHandle (staticRoot : List String) (pathExists : List String → Bool) :
    Option ReqPath → List String
  | none => serve_chat_html staticRoot
  | some p => catch_all staticRoot pathExists p

/-- The delta texts the caller receives before a failure strikes. -/
def preFailureDeltas : CompletionOutcome → List String
  | .raises => []
  | .stream events => deltasBefore events

/-! ## Helper lemmas -/

theorem consumeStream_of_mem_failure (events : List StreamEvent)
    (h : StreamEvent.failure ∈ events) :
    consumeStream events = deltasBefore events ++ [notice] := by
  induction events with
  | nil => simp at h
  | cons e rest ih =>
      cases e with
      | chunk d =>
          have hr : StreamEvent.failure ∈ rest := by simpa using h
          simp [consumeStream, deltasBefore, ih hr]
      | failure => simp [consumeStream, deltasBefore]

theorem tryBody_of_fails (completion : CompletionOutcome) (h : completion.fails) :
    tryBody completion = preFailureDeltas completion ++ [notice] := by
  cases completion with
  | raises => rfl
  | stream events => exact consumeStream_of_mem_failure events h

theorem consumeStream_chunks (ds : List (Option String)) :
    consumeStream (ds.map .chunk) = ds.map (fun d => d.getD "") := by
  induction ds with
  | nil => rfl
  | cons d rest ih => simp [consumeStream, ih]

theorem generate_valid (modelId : String) (maxTok : Nat) (prompt : String)
    (mt : Option Int) (completion : CompletionOutcome)
    (hmt : validMaxTokens maxTok (mt.getD (maxTok : Int)) = true) :
    generate modelId maxTok prompt mt completion
      = ⟨1, some ⟨modelId, [.text prompt], true, mt.getD (maxTok : Int)⟩,
          .streamed (tryBody completion)⟩ := by
  simp [generate, hmt]

theorem sights_valid (modelId : String) (maxTok : Nat) (prompt : String)
    (image : ImageInput) (mt : Option Int) (completion : CompletionOutcome)
    (content : List ContentBlock)
    (hmt : validMaxTokens maxTok (mt.getD (maxTok : Int)) = true)
    (hc : sightsContent prompt image = some content) :
    sights modelId maxTok prompt image mt completion
      = ⟨1, some ⟨modelId, content, true, mt.getD (maxTok : Int)⟩,
          .streamed (tryBody completion)⟩ := by
  simp [sights, hmt, hc]

/-! ## Claim theorems -/

/-- C1: for every call to `generate` or `sights` with valid parameters, if a
failure is raised while issuing the completions request or while consuming
the stream, the operation catches it and the output sequence is the deltas
already emitted followed by exactly one final notice chunk, and the
sequence terminates normally (outcome is `streamed`, not `raised`). -/
theorem c1_error_containment (modelId : String) (maxTok : Nat) (prompt : String)
    (mt : Option Int) (completion : CompletionOutcome) (image : ImageInput)
    (hmt : validMaxTokens maxTok (mt.getD (maxTok : Int)) = true)
    (hfail : completion.fails)
    (himg : image ≠ .serializationFails) :
    (generate modelId maxTok prompt mt completion).outcome
        = .streamed (preFailureDeltas completion ++ [notice]) ∧
    (sights modelId maxTok prompt image mt completion).outcome
        = .streamed (preFailureDeltas completion ++ [notice]) := by
  constructor
  · rw [generate_valid modelId maxTok prompt mt completion hmt,
        tryBody_of_fails completion hfail]
  · cases image with
    | serializationFails => exact absurd rfl himg
    | noImage =>
        rw [sights_valid modelId maxTok prompt .noImage mt completion _ hmt rfl,
            tryBody_of_fails completion hfail]
    | png bytes =>
        rw [sights_valid modelId maxTok prompt (.png bytes) mt completion _ hmt rfl,
            tryBody_of_fails completion hfail]

/-- C1 witness: a concrete mid-stream failure after one delta yields
`["a", notice]` on both endpoints. -/
theorem c1_error_containment_witness :
    (generate "m" 2048 "p" (some 128)
        (.stream [.chunk (some "a"), .failure])).outcome
      = .streamed (["a"] ++ [notice]) ∧
    (sights "m" 2048 "p" .noImage (some 128)
        (.stream [.chunk (some "a"), .failure])).outcome
      = .streamed (["a"] ++ [notice]) :=
  c1_error_containment "m" 2048 "p" (some 128)
    (.stream [.chunk (some "a"), .failure]) .noImage
    (by decide) (by decide) (by decide)

/-- C2: a `max_tokens` outside `[128, MAX_TOKENS]` is rejected before the
endpoint body runs: no completions call happens, no request is constructed
(so nothing is clamped), and the outcome is a synchronous rejection. -/
theorem c2_reject_out_of_bounds (modelId : String) (maxTok : Nat) (prompt : String)
    (mt : Int) (completion : CompletionOutcome) (image : ImageInput)
    (h : mt < 128 ∨ (maxTok : Int) < mt) :
    generate modelId maxTok prompt (some mt) completion
        = ⟨0, none, .rejected⟩ ∧
    sights modelId maxTok prompt image (some mt) completion
        = ⟨0, none, .rejected⟩ := by
  have hv : validMaxTokens maxTok mt = false := by
    simp only [validMaxTokens, Bool.and_eq_false_iff, decide_eq_false_iff_not, not_le]
    omega
  constructor
  · simp [generate, hv]
  · simp [sights, hv]

/-- C2 witness: `max_tokens = 127` is rejected with zero engine calls. -/
theorem c2_reject_out_of_bounds_witness :
    generate "m" 2048 "p" (some 127) (.stream []) = ⟨0, none, .rejected⟩ ∧
    sights "m" 2048 "p" .noImage (some 127) (.stream []) = ⟨0, none, .rejected⟩ :=
  c2_reject_out_of_bounds "m" 2048 "p" 127 (.stream []) .noImage (by decide)

/-- C3: the route table contains `/embeddings` iff `SUPPORTS_EMBEDDINGS`,
the `sights` api iff `SUPPORTS_VISION` and not `SUPPORTS_EMBEDDINGS`, and
the `generate` api iff not `SUPPORTS_EMBEDDINGS`. -/
theorem c3_route_composition (vision embeddings : Bool) :
    (Route.embeddings ∈ buildRoutes vision embeddings ↔ embeddings = true) ∧
    (Route.sightsApi ∈ buildRoutes vision embeddings
        ↔ vision = true ∧ embeddings = false) ∧
    (Route.generateApi ∈ buildRoutes vision embeddings ↔ embeddings = false) := by
  cases vision <;> cases embeddings <;> decide

/-- C4: with vision enabled and an image supplied, the content of the
constructed request is `[ImageRef, Text]` in that order, the data URI is exactly
`data:image/png;base64,` followed by the base64 encoding of the serialized
PNG bytes, and decoding that payload reproduces the bytes. -/
theorem c4_image_data_uri (modelId : String) (maxTok : Nat) (prompt : String)
    (bytes : List Nat) (mt : Option Int) (completion : CompletionOutcome)
    (hbytes : ∀ b ∈ bytes, b < 256)
    (hmt : validMaxTokens maxTok (mt.getD (maxTok : Int)) = true) :
    (sights modelId maxTok prompt (.png bytes) mt completion).request
        = some ⟨modelId,
            [.image_url ("data:image/png;base64," ++ (b64encode bytes).asString),
             .text prompt],
            true, mt.getD (maxTok : Int)⟩ ∧
    b64decode (b64encode bytes) = bytes := by
  constructor
  · rw [sights_valid modelId maxTok prompt (.png bytes) mt completion _ hmt rfl]
    rfl
  · exact b64decode_b64encode bytes hbytes

/-- C4 witness: bytes `[77, 0, 255]` produce the expected request and
round-trip through base64. -/
theorem c4_image_data_uri_witness :
    (sights "m" 2048 "p" (.png [77, 0, 255]) none (.stream [])).request
        = some ⟨"m",
            [.image_url ("data:image/png;base64," ++ (b64encode [77, 0, 255]).asString),
             .text "p"],
            true, (none : Option Int).getD ((2048 : Nat) : Int)⟩ ∧
    b64decode (b64encode [77, 0, 255]) = [77, 0, 255] :=
  c4_image_data_uri "m" 2048 "p" [77, 0, 255] none (.stream [])
    (by decide) (by decide)

/-- C5 counterexample: when PNG serialization fails, `sights` raises to the
caller with zero completions calls; the outcome is not the contained
single-notice stream the claim demands. -/
theorem c5_serialization_failure_counterexample :
    sights "m" 2048 "p" .serializationFails (some 128) (.stream [])
        = ⟨0, none, .raised⟩ ∧
    Outcome.raised ≠ .streamed [notice] := by
  constructor
  · rfl
  · intro h
    cases h

/-- C5 (amended): when PNG serialization of the supplied image fails, the
exception is raised before the `try` block, so it propagates to the caller:
no completions call occurs and no notice chunk is emitted.  Only failures
raised during the completions call or mid-stream consumption are contained. -/
theorem c5_serialization_failure_raises (modelId : String) (maxTok : Nat)
    (prompt : String) (mt : Option Int) (completion : CompletionOutcome)
    (hmt : validMaxTokens maxTok (mt.getD (maxTok : Int)) = true) :
    sights modelId maxTok prompt .serializationFails mt completion
        = ⟨0, none, .raised⟩ := by
  simp [sights, hmt, sightsContent]

/-- C5 witness: a concrete failing serialization raises with no engine call. -/
theorem c5_serialization_failure_raises_witness :
    sights "m" 2048 "p" .serializationFails (some 200) (.stream [.chunk (some "a")])
        = ⟨0, none, .raised⟩ :=
  c5_serialization_failure_raises "m" 2048 "p" (some 200)
    (.stream [.chunk (some "a")]) (by decide)

/-- C6: the claim that the served file path is confined to the static root
fails on the code: `os.path.join(STATIC_DIR, full_path)` performs no
normalization or confinement, so the request path `../secret.txt` under
static root `/srv/ui` resolves to `/srv/secret.txt` — outside the root —
and `catch_all` serves it when it exists; an absolute request path
escapes the root entirely. -/
theorem c6_directory_traversal :
    catchAllFilePath ["srv", "ui"] ⟨false, ["..", "secret.txt"]⟩
        = ["srv", "secret.txt"] ∧
    ¬ ["srv", "ui"] <+: ["srv", "secret.txt"] ∧
    catch_all ["srv", "ui"] (fun q => q == ["srv", "secret.txt"])
        ⟨false, ["..", "secret.txt"]⟩ = ["srv", "secret.txt"] ∧
    catchAllFilePath ["srv", "ui"] ⟨true, ["etc", "passwd"]⟩ = ["etc", "passwd"] := by
  refine ⟨rfl, ?_, rfl, rfl⟩
  intro h
  have := h.length_le
  rcases h with ⟨t, ht⟩
  have h1 := congrArg (fun l => l.get? 1) ht
  simp at h1

/-- C7: the resolved token ceiling is `min(declared, 4096)` whenever the
engine declares a maximum model length, and never exceeds 4096 for any
engine configuration. -/
theorem c7_max_tokens_resolution :
    (∀ declared : Nat, MAX_TOKENS (some declared) = min declared 4096) ∧
    (∀ maxModelLen : Option Nat, MAX_TOKENS maxModelLen ≤ 4096) := by
  constructor
  · intro declared
    rfl
  · intro maxModelLen
    cases maxModelLen <;> simp [MAX_TOKENS]

/-- C8: every chunk of a failure-free completion stream is re-emitted, in
order, as its delta text, with the empty string substituted when the chunk
carries no text; empty chunks are emitted, not skipped. -/
theorem c8_chunk_reemission (modelId : String) (maxTok : Nat) (prompt : String)
    (mt : Option Int) (image : ImageInput) (ds : List (Option String))
    (hmt : validMaxTokens maxTok (mt.getD (maxTok : Int)) = true)
    (himg : image ≠ .serializationFails) :
    (generate modelId maxTok prompt mt (.stream (ds.map .chunk))).outcome
        = .streamed (ds.map fun d => d.getD "") ∧
    (sights modelId maxTok prompt image mt (.stream (ds.map .chunk))).outcome
        = .streamed (ds.map fun d => d.getD "") := by
  have hbody : tryBody (.stream (ds.map .chunk)) = ds.map fun d => d.getD "" :=
    consumeStream_chunks ds
  constructor
  · rw [generate_valid modelId maxTok prompt mt _ hmt, hbody]
  · cases image with
    | serializationFails => exact absurd rfl himg
    | noImage =>
        rw [sights_valid modelId maxTok prompt .noImage mt _ _ hmt rfl, hbody]
    | png bytes =>
        rw [sights_valid modelId maxTok prompt (.png bytes) mt _ _ hmt rfl, hbody]

/-- C8 witness: the stream `["p", None, "g"]` is re-emitted as
`["p", "", "g"]` by both endpoints. -/
theorem c8_chunk_reemission_witness :
    (generate "m" 2048 "p" (some 128)
        (.stream (([some "p", none, some "g"] : List (Option String)).map .chunk))).outcome
      = .streamed (([some "p", none, some "g"] : List (Option String)).map
          fun d => d.getD "") ∧
    (sights "m" 2048 "p" .noImage (some 128)
        (.stream (([some "p", none, some "g"] : List (Option String)).map .chunk))).outcome
      = .streamed (([some "p", none, some "g"] : List (Option String)).map
          fun d => d.getD "") :=
  c8_chunk_reemission "m" 2048 "p" (some 128) .noImage [some "p", none, some "g"]
    (by decide) (by decide)

/-- C9: the UI root path serves `chat.html`; any other path serves the file
under the static root when it exists, and falls back to `chat.html`
otherwise. -/
theorem c9_ui_fallback (staticRoot : List String)
    (pathExists : List String → Bool) (p : ReqPath) :
    uiHandle staticRoot pathExists none = staticRoot ++ ["chat.html"] ∧
    (pathExists (catchAllFilePath staticRoot p) = true →
      uiHandle staticRoot pathExists (some p) = catchAllFilePath staticRoot p) ∧
    (pathExists (catchAllFilePath staticRoot p) = false →
      uiHandle staticRoot pathExists (some p) = staticRoot ++ ["chat.html"]) := by
  refine ⟨rfl, ?_, ?_⟩ <;> intro h <;> simp [uiHandle, catch_all, h]

/-- C9 witness: with only `app.js` present, `/` and a missing path serve
`chat.html` while `app.js` is served verbatim. -/
theorem c9_ui_fallback_witness :
    uiHandle ["srv", "ui"] (fun q => q == ["srv", "ui", "app.js"]) none
        = ["srv", "ui"] ++ ["chat.html"] ∧
    uiHandle ["srv", "ui"] (fun q => q == ["srv", "ui", "app.js"])
        (some ⟨false, ["app.js"]⟩) = ["srv", "ui", "app.js"] ∧
    uiHandle ["srv", "ui"] (fun q => q == ["srv", "ui", "app.js"])
        (some ⟨false, ["missing.html"]⟩) = ["srv", "ui"] ++ ["chat.html"] :=
  ⟨(c9_ui_fallback ["srv", "ui"] (fun q => q == ["srv", "ui", "app.js"])
      ⟨false, ["app.js"]⟩).1,
   (c9_ui_fallback ["srv", "ui"] (fun q => q == ["srv", "ui", "app.js"])
      ⟨false, ["app.js"]⟩).2.1 (by decide),
   (c9_ui_fallback ["srv", "ui"] (fun q => q == ["srv", "ui", "app.js"])
      ⟨false, ["missing.html"]⟩).2.2 (by decide)⟩

/-- C10: with `max_model_len` absent the resolved ceiling defaults to 2048,
the valid `max_tokens` interval becomes `[128, 2048]`, and an omitted
`max_tokens` argument behaves exactly as passing the resolved ceiling on
both endpoints. -/
theorem c10_default_max_tokens (modelId prompt : String) (image : ImageInput)
    (completion : CompletionOutcome) :
    MAX_TOKENS none = 2048 ∧
    (∀ mt : Int, validMaxTokens (MAX_TOKENS none) mt = true ↔ 128 ≤ mt ∧ mt ≤ 2048) ∧
    generate modelId (MAX_TOKENS none) prompt none completion
        = generate modelId (MAX_TOKENS none) prompt (some 2048) completion ∧
    sights modelId (MAX_TOKENS none) prompt image none completion
        = sights modelId (MAX_TOKENS none) prompt image (some 2048) completion := by
  refine ⟨rfl, ?_, rfl, rfl⟩
  intro mt
  rw [show MAX_TOKENS none = 2048 from rfl]
  simp only [validMaxTokens, Bool.and_eq_true, decide_eq_true_eq]
  omega

end Service
